import Mathlib

/-!
Shallow embedding of the citation formatter of the citework repository
(src/formatter.ts and the record types of src/sources.ts), together with
theorems checking the natural-language specification against it.

Modelling conventions:
- TypeScript optional values become `Option`; JavaScript truthiness of an
  optional string is `truthyStr` (defined, non-empty) and of an optional
  number is `truthyNat` (defined, non-zero).
- JavaScript `String.prototype.split(sep)` with a one-character separator
  keeps empty segments, exactly like `String.splitOn`.
- The JavaScript `Date` constructor combined with `getFullYear` is a runtime
  builtin, not repository code; `fromCrossref` abstracts it as an explicit
  function parameter `getFullYear`.  No claim depends on its value.
- String accumulation (`result += x` inside `if`) is translated as appending
  `if cond then x else ""`.
-/

/-- The `type` field of a UnifiedCitation (formatter.ts line 12). -/
inductive CitType where
  | book
  | article
  | paper
  | unknown
deriving DecidableEq, Repr

/-- The `source` field of a UnifiedCitation (formatter.ts line 13). -/
inductive CitSource where
  | crossref
  | googlebooks
  | openlibrary
deriving DecidableEq, Repr

/-- UnifiedCitation (formatter.ts lines 3-15). -/
structure UnifiedCitation where
  title : String
  authors : List String
  year : Option Nat
  publisher : Option String
  doi : Option String
  isbn : Option (List String)
  url : Option String
  abstract : Option String
  type : CitType
  source : CitSource
  language : Option String

/-- JavaScript truthiness of an optional string: defined and non-empty. -/
def truthyStr : Option String → Bool
  | none => false
  | some s => s != ""

/-- JavaScript truthiness of an optional number: defined and non-zero. -/
def truthyNat : Option Nat → Bool
  | none => false
  | some n => n != 0

/-- JavaScript `s.includes(sub)`: substring containment. -/
def includesStr (s sub : String) : Bool := decide (sub.data <:+: s.data)

/-- JavaScript `s.toLowerCase()`, character by character (the inputs here are
ASCII, where the two agree). -/
def lowerStr (s : String) : String := String.mk (s.data.map Char.toLower)

/-- Drop leading and trailing whitespace from a character list. -/
def trimChars (l : List Char) : List Char :=
  ((l.dropWhile Char.isWhitespace).reverse.dropWhile Char.isWhitespace).reverse

/-- JavaScript `s.trim()` (on the ASCII whitespace the code encounters). -/
def jsTrim (s : String) : String := String.mk (trimChars s.data)

/-- Split a character list at every occurrence of `sep`, keeping empty
segments, as JavaScript `split` with a one-character separator does. -/
def splitChar (sep : Char) : List Char → List (List Char) :=
  List.foldr
    (fun c acc =>
      if c = sep then [] :: acc
      else
        match acc with
        | h :: t => (c :: h) :: t
        | [] => [[c]])
    [[]]

/-- JavaScript `s.split(" ")`: split on single space characters, keeping
empty segments produced by runs of spaces. -/
def jsSplitSpace (s : String) : List String := (splitChar ' ' s.data).map String.mk

/-- mapCrossrefType (formatter.ts lines 17-29). -/
def mapCrossrefType (type : String) : CitType :=
  let lowerType := lowerStr type
  if includesStr lowerType "book" then CitType.book
  else if includesStr lowerType "journal" || includesStr lowerType "article" then CitType.article
  else if includesStr lowerType "proceedings" || includesStr lowerType "paper" then CitType.paper
  else CitType.unknown

/-- formatAuthorLastFirst (formatter.ts lines 31-38).  JavaScript
`name.trim().split(' ')` splits on single space characters, keeping empty
segments, which `jsSplitSpace` reproduces exactly. -/
def formatAuthorLastFirst (name : String) : String :=
  let parts := jsSplitSpace (jsTrim name)
  if parts.length = 1 then parts.headD ""
  else parts.getLastD "" ++ ", " ++ String.intercalate " " parts.dropLast

/-- formatAuthorsAPA (formatter.ts lines 40-59). -/
def formatAuthorsAPA (authors : List String) : String :=
  match authors with
  | [] => "Unknown Author"
  | [a] => formatAuthorLastFirst a
  | [a, b] => formatAuthorLastFirst a ++ " & " ++ formatAuthorLastFirst b
  | _ =>
    String.intercalate ", " (authors.dropLast.map formatAuthorLastFirst)
      ++ ", & " ++ formatAuthorLastFirst (authors.getLastD "")

/-- formatAuthorsMLA (formatter.ts lines 61-69). -/
def formatAuthorsMLA (authors : List String) : String :=
  match authors with
  | [] => "Unknown Author"
  | [a] => formatAuthorLastFirst a
  | [a, b] => formatAuthorLastFirst a ++ ", and " ++ b
  | a :: _ => formatAuthorLastFirst a ++ ", et al"

/-- formatAuthorsChicago (formatter.ts lines 71-82). -/
def formatAuthorsChicago (authors : List String) : String :=
  match authors with
  | [] => "Unknown Author"
  | [a] => formatAuthorLastFirst a
  | [a, b] => formatAuthorLastFirst a ++ " and " ++ b
  | _ =>
    String.intercalate ", " (authors.dropLast.map formatAuthorLastFirst)
      ++ ", and " ++ authors.getLastD ""

/-- formatAuthorsHarvard (formatter.ts lines 84-96). -/
def formatAuthorsHarvard (authors : List String) : String :=
  match authors with
  | [] => "Unknown Author"
  | [a] => formatAuthorLastFirst a
  | [a, b] => formatAuthorLastFirst a ++ " and " ++ formatAuthorLastFirst b
  | a :: _ => formatAuthorLastFirst a ++ " et al."

/-- generateBibTeXKey (formatter.ts lines 98-104).  `authors[0]?.split(' ')
.pop()?.toLowerCase() || 'unknown'` falls back to "unknown" when there is no
first author or when the lowercased last segment is empty. -/
def generateBibTeXKey (citation : UnifiedCitation) : String :=
  let author := match citation.authors with
    | [] => "unknown"
    | a :: _ =>
      let last := lowerStr ((jsSplitSpace a).getLastD "")
      if last = "" then "unknown" else last
  let year := match citation.year with
    | some n => if n = 0 then "nodate" else Nat.repr n
    | none => "nodate"
  let titleWord :=
    let w := lowerStr ((jsSplitSpace citation.title).headD "")
    if w = "" then "untitled" else w
  author ++ year ++ titleWord

/-- An entry of the `author` array of a Crossref Reference (sources.ts lines
24-31).  The fields are typed optional since `fromCrossref` accesses them
defensively with `|| ''`; the `affiliation` array is never read. -/
structure CrossrefAuthor where
  given : Option String
  family : Option String
  sequence : Option String

/-- The `created` field of a Crossref Reference (sources.ts lines 17-20);
`dateTime` stands for the JSON key `date-time`. -/
structure CrossrefCreated where
  dateTime : String
  timestamp : Nat

/-- The `resource.primary` object of a Crossref Reference (sources.ts
lines 34-38). -/
structure CrossrefPrimary where
  URL : String

/-- The `resource` field of a Crossref Reference; `primary` is optional
because `fromCrossref` accesses it as `resource?.primary?.URL`. -/
structure CrossrefResource where
  primary : Option CrossrefPrimary

/-- A Crossref Reference (sources.ts lines 1-49), restricted to the fields
that `fromCrossref` reads; fields accessed with optional chaining or
truthiness fallbacks are `Option`. -/
structure Reference where
  publisher : Option String
  abstract : Option String
  DOI : Option String
  type : String
  created : Option CrossrefCreated
  title : Option (List String)
  author : Option (List CrossrefAuthor)
  language : Option String
  resource : Option CrossrefResource
  ISBN : Option (List String)
  URL : Option String

/-- fromCrossref (formatter.ts lines 106-128).  The JavaScript expression
`new Date(s).getFullYear()` is a runtime builtin abstracted as the
parameter `getFullYear`. -/
def fromCrossref (getFullYear : String → Nat) (reference : Reference) :
    UnifiedCitation :=
  let authors := (reference.author.map (fun l => l.map (fun a =>
      jsTrim ((a.given.getD "") ++ " " ++ (a.family.getD ""))))).getD []
  let year := match reference.created with
    | some cr => if cr.dateTime = "" then none else some (getFullYear cr.dateTime)
    | none => none
  { title := match reference.title with
      | some (t :: _) => if t = "" then "Untitled" else t
      | _ => "Untitled"
    authors := authors
    year := year
    publisher := reference.publisher
    doi := reference.DOI
    isbn := reference.ISBN
    url := if truthyStr reference.URL then reference.URL
           else (reference.resource.bind (fun r => r.primary)).map (fun p => p.URL)
    abstract := reference.abstract
    type := mapCrossrefType reference.type
    source := CitSource.crossref
    language := reference.language }

/-- The local `year` of toAPA (formatter.ts line 165):
`citation.year ? "(" + year + ")" : "(n.d.)"` under JavaScript truthiness. -/
def apaYear (citation : UnifiedCitation) : String :=
  match citation.year with
  | some n => if n = 0 then "(n.d.)" else "(" ++ Nat.repr n ++ ")"
  | none => "(n.d.)"

/-- The local `title` of toAPA (formatter.ts line 166). -/
def apaTitle (citation : UnifiedCitation) : String :=
  if citation.type = CitType.book then "<i>" ++ citation.title ++ "</i>"
  else citation.title

/-- toAPA (formatter.ts lines 163-181). -/
def toAPA (citation : UnifiedCitation) : String :=
  formatAuthorsAPA citation.authors ++ " " ++ apaYear citation ++ ". "
    ++ apaTitle citation ++ "."
    ++ (if truthyStr citation.publisher then " " ++ citation.publisher.getD "" ++ "." else "")
    ++ (if truthyStr citation.doi then " https://doi.org/" ++ citation.doi.getD ""
        else if truthyStr citation.url then " " ++ citation.url.getD "" else "")

/-- The local `title` of toMLA (formatter.ts line 185). -/
def mlaTitle (citation : UnifiedCitation) : String :=
  if citation.type = CitType.book then "<i>" ++ citation.title ++ "</i>"
  else "\"" ++ citation.title ++ "\""

/-- toMLA (formatter.ts lines 183-204). -/
def toMLA (citation : UnifiedCitation) : String :=
  formatAuthorsMLA citation.authors ++ ". " ++ mlaTitle citation ++ "."
    ++ (if truthyStr citation.publisher then " " ++ citation.publisher.getD "" else "")
    ++ (if truthyNat citation.year then ", " ++ Nat.repr (citation.year.getD 0) else "")
    ++ "."
    ++ (if truthyStr citation.url then " " ++ citation.url.getD "" ++ "." else "")

/-- The local `year` of toChicago (formatter.ts line 208):
`citation.year || "n.d."` under JavaScript truthiness. -/
def chicagoYear (citation : UnifiedCitation) : String :=
  match citation.year with
  | some n => if n = 0 then "n.d." else Nat.repr n
  | none => "n.d."

/-- The local `title` of toChicago (formatter.ts line 209). -/
def chicagoTitle (citation : UnifiedCitation) : String :=
  if citation.type = CitType.book then "<i>" ++ citation.title ++ "</i>"
  else "\"" ++ citation.title ++ "\""

/-- toChicago (formatter.ts lines 206-224). -/
def toChicago (citation : UnifiedCitation) : String :=
  formatAuthorsChicago citation.authors ++ ". " ++ chicagoYear citation ++ ". "
    ++ chicagoTitle citation ++ "."
    ++ (if truthyStr citation.publisher then " " ++ citation.publisher.getD "" ++ "." else "")
    ++ (if truthyStr citation.doi then " https://doi.org/" ++ citation.doi.getD "" ++ "."
        else if truthyStr citation.url then " " ++ citation.url.getD "" ++ "." else "")

/-- The local `year` of toHarvard (formatter.ts line 228). -/
def harvardYear (citation : UnifiedCitation) : String :=
  match citation.year with
  | some n => if n = 0 then "n.d." else Nat.repr n
  | none => "n.d."

/-- The local `title` of toHarvard (formatter.ts line 229). -/
def harvardTitle (citation : UnifiedCitation) : String :=
  if citation.type = CitType.book then "<i>" ++ citation.title ++ "</i>"
  else citation.title

/-- toHarvard (formatter.ts lines 226-242). -/
def toHarvard (citation : UnifiedCitation) : String :=
  formatAuthorsHarvard citation.authors ++ " (" ++ harvardYear citation ++ ") "
    ++ harvardTitle citation ++ "."
    ++ (if truthyStr citation.publisher then " " ++ citation.publisher.getD "" ++ "." else "")
    ++ (if truthyStr citation.url then " Available at: " ++ citation.url.getD "" else "")

/-- toBibTeX (formatter.ts lines 244-278). -/
def toBibTeX (citation : UnifiedCitation) : String :=
  "@" ++ (if citation.type = CitType.book then "book" else "article")
    ++ "\x7b" ++ generateBibTeXKey citation ++ ",\n"
    ++ "  title=\x7b" ++ citation.title ++ "\x7d,\n"
    ++ (if citation.authors.length > 0 then
          "  author=\x7b" ++ String.intercalate " and " citation.authors ++ "\x7d,\n"
        else "")
    ++ (if truthyNat citation.year then
          "  year=\x7b" ++ Nat.repr (citation.year.getD 0) ++ "\x7d,\n"
        else "")
    ++ (if truthyStr citation.publisher then
          "  publisher=\x7b" ++ citation.publisher.getD "" ++ "\x7d,\n"
        else "")
    ++ (if truthyStr citation.doi then
          "  doi=\x7b" ++ citation.doi.getD "" ++ "\x7d,\n"
        else "")
    ++ (match citation.isbn with
        | some (i :: _) => "  isbn=\x7b" ++ i ++ "\x7d,\n"
        | _ => "")
    ++ (if truthyStr citation.url then
          "  url=\x7b" ++ citation.url.getD "" ++ "\x7d,\n"
        else "")
    ++ "\x7d"

/-- The part of the toBibTeX output after the opening `@type` and brace,
used to state which entry type prefixes the output. -/
def bibtexTail (citation : UnifiedCitation) : String :=
  generateBibTeXKey citation ++ ",\n"
    ++ "  title=\x7b" ++ citation.title ++ "\x7d,\n"
    ++ (if citation.authors.length > 0 then
          "  author=\x7b" ++ String.intercalate " and " citation.authors ++ "\x7d,\n"
        else "")
    ++ (if truthyNat citation.year then
          "  year=\x7b" ++ Nat.repr (citation.year.getD 0) ++ "\x7d,\n"
        else "")
    ++ (if truthyStr citation.publisher then
          "  publisher=\x7b" ++ citation.publisher.getD "" ++ "\x7d,\n"
        else "")
    ++ (if truthyStr citation.doi then
          "  doi=\x7b" ++ citation.doi.getD "" ++ "\x7d,\n"
        else "")
    ++ (match citation.isbn with
        | some (i :: _) => "  isbn=\x7b" ++ i ++ "\x7d,\n"
        | _ => "")
    ++ (if truthyStr citation.url then
          "  url=\x7b" ++ citation.url.getD "" ++ "\x7d,\n"
        else "")
    ++ "\x7d"

/-- JavaScript `s.startsWith(p)`, as prefix containment on the character
lists. -/
def strStartsWith (s p : String) : Bool := p.data.isPrefixOf s.data

/-- Split a character list at every character satisfying `p`, keeping empty
segments. -/
def splitPred (p : Char → Bool) : List Char → List (List Char) :=
  List.foldr
    (fun c acc =>
      if p c then [] :: acc
      else
        match acc with
        | h :: t => (c :: h) :: t
        | [] => [[c]])
    [[]]

/-- The whitespace tokens of a name: split on whitespace characters and
discard the empty segments, so runs of whitespace count as one separator. -/
def specNameTokens (name : String) : List String :=
  ((splitPred Char.isWhitespace name.data).filter (fun t => !t.isEmpty)).map String.mk

/-- Modelled from the spec words of C3: split the full name on whitespace;
if exactly one token results return the name unchanged; otherwise the last
token is the family name and all preceding tokens rejoined with single
spaces are the given names, rendered as Family, Given. -/
def formatAuthorLastFirstSpec (name : String) : String :=
  match specNameTokens name with
  | [_] => name
  | toks => toks.getLastD "" ++ ", " ++ String.intercalate " " toks.dropLast

/-- The amended C3 behavior: split the trimmed name on single space
characters, keeping the empty segments that runs of spaces produce; one
segment is returned as is, otherwise the last segment is the family name and
the preceding segments are rejoined with single spaces. -/
def formatAuthorLastFirstAmended (name : String) : String :=
  match jsSplitSpace (jsTrim name) with
  | [t] => t
  | parts => parts.getLastD "" ++ ", " ++ String.intercalate " " parts.dropLast

/-- The MLA assembly rule as the spec states it for C8: authors, period,
title quoted unless the citation is a book, period, publisher with a leading
space when present, year with a leading comma and space when present, then
always a period, then the URL with a trailing period when present. -/
def toMLASpec (citation : UnifiedCitation) : String :=
  formatAuthorsMLA citation.authors ++ ". "
    ++ (if citation.type = CitType.book then "<i>" ++ citation.title ++ "</i>"
        else "\"" ++ citation.title ++ "\"") ++ "."
    ++ (if truthyStr citation.publisher then " " ++ citation.publisher.getD "" else "")
    ++ (if truthyNat citation.year then ", " ++ Nat.repr (citation.year.getD 0) else "")
    ++ "."
    ++ (if truthyStr citation.url then " " ++ citation.url.getD "" ++ "." else "")

/-- The Cormen citation of the C2 scenario. -/
def cormenBook : UnifiedCitation :=
  { title := "Introduction to Algorithms"
    authors := ["Thomas H. Cormen", "Charles E. Leiserson"]
    year := some 2009
    publisher := some "MIT Press"
    doi := none
    isbn := some ["9780262033848"]
    url := none
    abstract := none
    type := CitType.book
    source := CitSource.googlebooks
    language := none }

/-- A concrete Crossref reference whose type string is proceedings-article. -/
def procArticleRef : Reference :=
  { publisher := none
    abstract := none
    DOI := none
    type := "proceedings-article"
    created := none
    title := some ["Some Paper"]
    author := none
    language := none
    resource := none
    ISBN := none
    URL := none }

/-- A concrete citation with no authors. -/
def noAuthorsCitation : UnifiedCitation :=
  { title := "Anonymous Work"
    authors := []
    year := some 2001
    publisher := some "Acme"
    doi := none
    isbn := none
    url := none
    abstract := none
    type := CitType.article
    source := CitSource.crossref
    language := none }

/-- A concrete citation with no year. -/
def undatedCitation : UnifiedCitation :=
  { title := "Undated Work"
    authors := ["Ann Bee"]
    year := none
    publisher := none
    doi := none
    isbn := none
    url := none
    abstract := none
    type := CitType.paper
    source := CitSource.crossref
    language := none }

/-- A concrete non-book citation. -/
def plainArticleCitation : UnifiedCitation :=
  { title := "Plain Article"
    authors := ["Ann Bee"]
    year := some 2015
    publisher := none
    doi := none
    isbn := none
    url := none
    abstract := none
    type := CitType.paper
    source := CitSource.crossref
    language := none }

/-- A concrete citation carrying both a DOI and a URL. -/
def linkedCitation : UnifiedCitation :=
  { title := "Linked Work"
    authors := ["Ann Bee"]
    year := some 2010
    publisher := none
    doi := some "10.1000/xyz"
    isbn := none
    url := some "https://example.org/x"
    abstract := none
    type := CitType.article
    source := CitSource.crossref
    language := none }

/-- A concrete citation whose year is zero. -/
def yearZeroCitation : UnifiedCitation :=
  { title := "Zero Year"
    authors := ["Ann Bee"]
    year := some 0
    publisher := none
    doi := none
    isbn := none
    url := none
    abstract := none
    type := CitType.book
    source := CitSource.openlibrary
    language := none }

/-- A prefix check against the whole left part of an append succeeds. -/
theorem strStartsWith_iff (s p : String) :
    strStartsWith s p = true ↔ p.data <+: s.data := by
  simp [strStartsWith, List.isPrefixOf_iff_prefix]

/-- A string starts with the left part of an append of itself. -/
theorem strStartsWith_append (p r : String) : strStartsWith (p ++ r) p = true := by
  rw [strStartsWith_iff, String.data_append]
  exact List.prefix_append _ _

/-- Appending on the right preserves a prefix. -/
theorem strStartsWith_append_right (s t p : String)
    (h : strStartsWith s p = true) : strStartsWith (s ++ t) p = true := by
  rw [strStartsWith_iff] at h ⊢
  rw [String.data_append]
  exact h.trans (List.prefix_append _ _)

/-- A string beginning with the article entry opener never starts with the
book entry opener. -/
theorem article_not_book_prefix (r : String) :
    strStartsWith ("@article\x7b" ++ r) "@book\x7b" = false := rfl

/-- toBibTeX output splits into the entry opener and the remaining tail. -/
theorem toBibTeX_split (c : UnifiedCitation) :
    toBibTeX c =
      ("@" ++ (if c.type = CitType.book then "book" else "article") ++ "\x7b")
        ++ bibtexTail c := by
  simp only [toBibTeX, bibtexTail, String.append_assoc]

set_option maxRecDepth 10000 in
/-- C1: fromCrossref classifies the citation type by substring checks on the
lowercased source type string in the fixed priority order: book substring
gives book; else journal or article substring gives article; else
proceedings or paper substring gives paper; else unknown.  In particular a
reference of type proceedings-article is classified as article, because the
article check precedes the proceedings check. -/
theorem C1_crossref_type_priority :
    (∀ (gfy : String → Nat) (ref : Reference),
      (fromCrossref gfy ref).type = mapCrossrefType ref.type) ∧
    (∀ t : String,
      (includesStr (lowerStr t) "book" = true → mapCrossrefType t = CitType.book) ∧
      (includesStr (lowerStr t) "book" = false →
        (includesStr (lowerStr t) "journal" || includesStr (lowerStr t) "article") = true →
        mapCrossrefType t = CitType.article) ∧
      (includesStr (lowerStr t) "book" = false →
        (includesStr (lowerStr t) "journal" || includesStr (lowerStr t) "article") = false →
        (includesStr (lowerStr t) "proceedings" || includesStr (lowerStr t) "paper") = true →
        mapCrossrefType t = CitType.paper) ∧
      (includesStr (lowerStr t) "book" = false →
        (includesStr (lowerStr t) "journal" || includesStr (lowerStr t) "article") = false →
        (includesStr (lowerStr t) "proceedings" || includesStr (lowerStr t) "paper") = false →
        mapCrossrefType t = CitType.unknown)) ∧
    mapCrossrefType "proceedings-article" = CitType.article := by
  refine ⟨fun gfy ref => rfl, fun t => ⟨?_, ?_, ?_, ?_⟩, by decide⟩
  · intro h1; simp [mapCrossrefType, h1]
  · intro h1 h2; simp [mapCrossrefType, h1, h2]
  · intro h1 h2 h3; simp [mapCrossrefType, h1, h2, h3]
  · intro h1 h2 h3; simp [mapCrossrefType, h1, h2, h3]

/-- Witness for C1 at a concrete reference of type proceedings-article. -/
theorem C1_crossref_type_priority_witness :
    (fromCrossref (fun _ => 2023) procArticleRef).type = CitType.article := by
  have h := C1_crossref_type_priority
  rw [h.1 (fun _ => 2023) procArticleRef]
  exact h.2.2

set_option maxRecDepth 10000 in
/-- C2: on the Cormen book citation, toBibTeX returns exactly the claimed
string, with the fields in the fixed order title, author, year, publisher,
isbn, one per line with a trailing comma, the key
cormen2009introduction, and a closing line holding only the closing
brace. -/
theorem C2_bibtex_cormen_exact :
    toBibTeX cormenBook =
      "@book\x7bcormen2009introduction,\n  title=\x7bIntroduction to Algorithms\x7d,\n  author=\x7bThomas H. Cormen and Charles E. Leiserson\x7d,\n  year=\x7b2009\x7d,\n  publisher=\x7bMIT Press\x7d,\n  isbn=\x7b9780262033848\x7d,\n\x7d" := by
  decide

/-- C3 counterexample: the code splits names on single space characters, not
on whitespace runs; on a name with an internal double space the empty
segment is kept and the rendered given names carry a trailing space, while
the spec-described whitespace splitting yields exactly one space. -/
theorem C3_name_split_counterexample :
    formatAuthorLastFirst "John  Smith" = "Smith, John " ∧
    formatAuthorLastFirstSpec "John  Smith" = "Smith, John" ∧
    formatAuthorLastFirst "John  Smith" ≠ formatAuthorLastFirstSpec "John  Smith" :=
  ⟨by decide, by decide, by decide⟩

/-- C3 amended: the shared primitive splits the trimmed name on single space
characters, keeping empty segments produced by runs of spaces; if exactly
one segment results it is returned as is, otherwise the last segment is the
family name and the preceding segments rejoined with single spaces are the
given names, rendered as Family, Given. -/
theorem C3_name_split_amended :
    ∀ name : String, formatAuthorLastFirst name = formatAuthorLastFirstAmended name := by
  intro name
  simp only [formatAuthorLastFirst, formatAuthorLastFirstAmended]
  rcases h : jsSplitSpace (jsTrim name) with _ | ⟨a, _ | ⟨b, r⟩⟩ <;> simp

/-- C4: with exactly two authors, toMLA and toChicago swap only the first
author and keep the second author name verbatim, joined by a comma and the
word and in MLA and by the word and in Chicago; with three or more authors
toChicago swaps all but the last author and keeps the last author name
verbatim after a comma and the word and. -/
theorem C4_unswapped_second_author :
    (∀ a b : String, formatAuthorsMLA [a, b] = formatAuthorLastFirst a ++ ", and " ++ b) ∧
    (∀ a b : String, formatAuthorsChicago [a, b] = formatAuthorLastFirst a ++ " and " ++ b) ∧
    (∀ l : List String, 3 ≤ l.length →
      formatAuthorsChicago l =
        String.intercalate ", " (l.dropLast.map formatAuthorLastFirst)
          ++ ", and " ++ l.getLastD "") := by
  refine ⟨fun a b => rfl, fun a b => rfl, fun l h => ?_⟩
  rcases l with _ | ⟨a, _ | ⟨b, _ | ⟨c, r⟩⟩⟩
  · simp at h
  · simp at h
  · simp at h
  · rfl

/-- Witness for C4 on a concrete three author list. -/
theorem C4_unswapped_second_author_witness :
    formatAuthorsChicago ["Ann Bee", "Cee Dee", "Eve Fox"]
      = "Bee, Ann, Dee, Cee, and Eve Fox" := by
  rw [C4_unswapped_second_author.2.2 ["Ann Bee", "Cee Dee", "Eve Fox"] (by decide)]
  decide

/-- C5: the toBibTeX output starts with the book entry opener exactly when
the citation type is book, and otherwise starts with the article entry
opener. -/
theorem C5_bibtex_entry_type (c : UnifiedCitation) :
    (strStartsWith (toBibTeX c) "@book\x7b" = true ↔ c.type = CitType.book) ∧
    (c.type ≠ CitType.book → strStartsWith (toBibTeX c) "@article\x7b" = true) := by
  have hsplit := toBibTeX_split c
  by_cases hb : c.type = CitType.book
  · rw [hb] at hsplit
    simp only [if_pos rfl] at hsplit
    have h1 : toBibTeX c = "@book\x7b" ++ bibtexTail c := by
      rw [hsplit]; rfl
    constructor
    · rw [h1]
      exact iff_of_true (strStartsWith_append _ _) hb
    · intro hne; exact absurd hb hne
  · simp only [if_neg hb] at hsplit
    have h1 : toBibTeX c = "@article\x7b" ++ bibtexTail c := by
      rw [hsplit]; rfl
    constructor
    · rw [h1, article_not_book_prefix]
      simp [hb]
    · intro _; rw [h1]; exact strStartsWith_append _ _

/-- Witness for C5 at a concrete non-book citation. -/
theorem C5_bibtex_entry_type_witness :
    strStartsWith (toBibTeX plainArticleCitation) "@article\x7b" = true :=
  (C5_bibtex_entry_type plainArticleCitation).2 (by decide)

/-- C6: with an empty author list, every author formatter returns the token
Unknown Author, and every renderer output therefore begins with that
token. -/
theorem C6_unknown_author_token (c : UnifiedCitation) (h : c.authors = []) :
    formatAuthorsAPA c.authors = "Unknown Author" ∧
    formatAuthorsMLA c.authors = "Unknown Author" ∧
    formatAuthorsChicago c.authors = "Unknown Author" ∧
    formatAuthorsHarvard c.authors = "Unknown Author" ∧
    strStartsWith (toAPA c) "Unknown Author" = true ∧
    strStartsWith (toMLA c) "Unknown Author" = true ∧
    strStartsWith (toChicago c) "Unknown Author" = true ∧
    strStartsWith (toHarvard c) "Unknown Author" = true := by
  refine ⟨by rw [h]; rfl, by rw [h]; rfl, by rw [h]; rfl, by rw [h]; rfl, ?_, ?_, ?_, ?_⟩
  · simp only [toAPA, h]
    repeat apply strStartsWith_append_right
    decide
  · simp only [toMLA, h]
    repeat apply strStartsWith_append_right
    decide
  · simp only [toChicago, h]
    repeat apply strStartsWith_append_right
    decide
  · simp only [toHarvard, h]
    repeat apply strStartsWith_append_right
    decide

/-- Witness for C6 at a concrete citation with no authors. -/
theorem C6_unknown_author_token_witness :
    formatAuthorsAPA noAuthorsCitation.authors = "Unknown Author" ∧
    strStartsWith (toAPA noAuthorsCitation) "Unknown Author" = true :=
  ⟨(C6_unknown_author_token noAuthorsCitation rfl).1,
   (C6_unknown_author_token noAuthorsCitation rfl).2.2.2.2.1⟩

/-- C7: when the year is absent, toAPA renders the parenthesized no-date
token in the year position while toChicago and toHarvard render the bare
no-date token in the year position. -/
theorem C7_missing_year_placeholder (c : UnifiedCitation) (h : c.year = none) :
    apaYear c = "(n.d.)" ∧ chicagoYear c = "n.d." ∧ harvardYear c = "n.d." ∧
    toAPA c = formatAuthorsAPA c.authors ++ " " ++ "(n.d.)" ++ ". " ++ apaTitle c ++ "."
      ++ (if truthyStr c.publisher then " " ++ c.publisher.getD "" ++ "." else "")
      ++ (if truthyStr c.doi then " https://doi.org/" ++ c.doi.getD ""
          else if truthyStr c.url then " " ++ c.url.getD "" else "") ∧
    toChicago c = formatAuthorsChicago c.authors ++ ". " ++ "n.d." ++ ". "
      ++ chicagoTitle c ++ "."
      ++ (if truthyStr c.publisher then " " ++ c.publisher.getD "" ++ "." else "")
      ++ (if truthyStr c.doi then " https://doi.org/" ++ c.doi.getD "" ++ "."
          else if truthyStr c.url then " " ++ c.url.getD "" ++ "." else "") ∧
    toHarvard c = formatAuthorsHarvard c.authors ++ " (" ++ "n.d." ++ ") "
      ++ harvardTitle c ++ "."
      ++ (if truthyStr c.publisher then " " ++ c.publisher.getD "" ++ "." else "")
      ++ (if truthyStr c.url then " Available at: " ++ c.url.getD "" else "") := by
  have h1 : apaYear c = "(n.d.)" := by simp [apaYear, h]
  have h2 : chicagoYear c = "n.d." := by simp [chicagoYear, h]
  have h3 : harvardYear c = "n.d." := by simp [harvardYear, h]
  refine ⟨h1, h2, h3, ?_, ?_, ?_⟩
  · rw [toAPA, h1]
  · rw [toChicago, h2]
  · rw [toHarvard, h3]

/-- Witness for C7 at a concrete citation with no year. -/
theorem C7_missing_year_placeholder_witness :
    apaYear undatedCitation = "(n.d.)" ∧ chicagoYear undatedCitation = "n.d." ∧
    harvardYear undatedCitation = "n.d." :=
  ⟨(C7_missing_year_placeholder undatedCitation rfl).1,
   (C7_missing_year_placeholder undatedCitation rfl).2.1,
   (C7_missing_year_placeholder undatedCitation rfl).2.2.1⟩

/-- C8: toMLA assembles its output as authors, period, title quoted unless
the citation is a book, period, the publisher with a leading space when
present, the year with a leading comma and space when present, then always a
period after the publisher and year segment, then the URL with a trailing
period when present. -/
theorem C8_mla_assembly : ∀ c : UnifiedCitation, toMLA c = toMLASpec c :=
  fun _ => rfl

/-- C9: toHarvard never reads the doi field, and when the url is present it
is appended verbatim after the Available at marker, at the very end of the
output with no trailing period. -/
theorem C9_harvard_url_no_doi :
    (∀ (c : UnifiedCitation) (d : Option String),
      toHarvard { c with doi := d } = toHarvard c) ∧
    (∀ (c : UnifiedCitation) (u : String), c.url = some u → u ≠ "" →
      toHarvard c = toHarvard { c with url := none } ++ " Available at: " ++ u) := by
  constructor
  · intro c d; cases c; rfl
  · intro c u hu hne
    cases c
    simp only at hu
    subst hu
    simp [toHarvard, harvardYear, harvardTitle, truthyStr, hne, String.append_assoc]

/-- Witness for C9 at a concrete citation holding both a DOI and a URL. -/
theorem C9_harvard_url_no_doi_witness :
    toHarvard linkedCitation =
      toHarvard { linkedCitation with url := none } ++ " Available at: "
        ++ "https://example.org/x" :=
  C9_harvard_url_no_doi.2 linkedCitation "https://example.org/x" rfl (by decide)

/-- C10: a citation whose year is zero renders exactly like one whose year
is absent, in all five renderers and in the BibTeX key. -/
theorem C10_year_zero_missing (c : UnifiedCitation) (h : c.year = some 0) :
    toAPA c = toAPA { c with year := none } ∧
    toMLA c = toMLA { c with year := none } ∧
    toChicago c = toChicago { c with year := none } ∧
    toHarvard c = toHarvard { c with year := none } ∧
    toBibTeX c = toBibTeX { c with year := none } ∧
    generateBibTeXKey c = generateBibTeXKey { c with year := none } := by
  cases c
  simp only at h
  subst h
  exact ⟨rfl, rfl, rfl, rfl, rfl, rfl⟩

/-- Witness for C10 at a concrete citation whose year is zero. -/
theorem C10_year_zero_missing_witness :
    toAPA yearZeroCitation = toAPA { yearZeroCitation with year := none } ∧
    generateBibTeXKey yearZeroCitation =
      generateBibTeXKey { yearZeroCitation with year := none } :=
  ⟨(C10_year_zero_missing yearZeroCitation rfl).1,
   (C10_year_zero_missing yearZeroCitation rfl).2.2.2.2.2⟩
